import Mathlib

/-!
Shallow embedding of the PrivateMultiConverter backend
(src/backend/src): the conversion dispatcher (`fileConverter.ts`),
the convert and youtube job routes (`routes/convert.ts`,
`routes/youtube.ts`), the yt-dlp service (`services/youtubeService.ts`),
the temp-file sweeper (`utils/cleanup.ts`), the auth middleware
(`middleware/auth.ts`) and the QR-code service
(`services/qrcodeService.ts`), together with theorems settling the
frozen claims about them.

External effects (multer staging, ffmpeg/sharp/yt-dlp invocations,
the QRCode library) are modelled as oracle parameters; the filesystem
is a list of existing paths; JavaScript truthiness of optional strings
is modelled explicitly (absent or empty string is falsy).
-/

namespace PMC

/-- JavaScript `a || d` on an optional string `a` and a default `d`:
the default is used when `a` is absent or the empty string. -/
def jsStrOr (o : Option String) (d : String) : String :=
  match o with
  | some s => if s = "" then d else s
  | none => d

/-- JavaScript truthiness of an optional string value. -/
def truthyS (o : Option String) : Bool :=
  match o with
  | some s => s != ""
  | none => false

/-- JavaScript `a || b` on two optional strings (header, query). -/
def jsOrOpt (a b : Option String) : Option String :=
  match a with
  | some s => if s = "" then b else some s
  | none => b

theorem jsStrOr_ne_empty (o : Option String) (d : String) (hd : d ≠ "") :
    jsStrOr o d ≠ "" := by
  unfold jsStrOr
  cases o with
  | none => exact hd
  | some s =>
    by_cases hs : s = "" <;> simp [hs, hd]

theorem str_append_left_ne_empty (s t : String) (hs : s ≠ "") :
    s ++ t ≠ "" := by
  cases s with
  | mk a =>
    cases t with
    | mk b =>
      intro h
      apply hs
      have h2 : a ++ b = [] := congrArg String.data h
      have ha : a = [] := by
        cases a with
        | nil => rfl
        | cons x xs => simp at h2
      simp [ha]

-- ============================================
-- services/fileConverter.ts
-- ============================================

/-- The concrete conversion strategy functions of `fileConverter.ts`. -/
inductive ConversionStrategy where
  | convertMp4ToMp3
  | convertPngToJpg
  | convertJpgToPng
  | convertPngToWebp
  | convertJpgToWebp
  | convertWebpToPng
  | convertWebpToJpg
  | convertImageToWebp
  | convertPdfToJpg
  | convertDocxToPdf
deriving DecidableEq, Repr

/-- `ConversionResult` of `fileConverter.ts`. -/
structure ConversionResult where
  success : Bool
  outputPath : Option String := none
  outputFileName : Option String := none
  error : Option String := none
deriving DecidableEq, Repr

/-- The `validTypes` list of `isValidConversionType`. -/
def validConversionTypes : List String :=
  ["mp4-to-mp3",
   "png-to-jpg", "jpg-to-png",
   "png-to-webp", "jpg-to-webp",
   "webp-to-png", "webp-to-jpg",
   "image-to-webp",
   "pdf-to-jpg", "docx-to-pdf"]

/-- `isValidConversionType` of `fileConverter.ts` (`validTypes.includes(type)`). -/
def isValidConversionType (t : String) : Bool :=
  validConversionTypes.contains t

/-- The `switch (conversionType)` of `convertFile`: which strategy each
case invokes; the `default` case selects none. -/
def dispatchStrategy (t : String) : Option ConversionStrategy :=
  if t = "mp4-to-mp3" then some .convertMp4ToMp3
  else if t = "png-to-jpg" then some .convertPngToJpg
  else if t = "png-to-webp" then some .convertPngToWebp
  else if t = "jpg-to-png" then some .convertJpgToPng
  else if t = "jpg-to-webp" then some .convertJpgToWebp
  else if t = "webp-to-png" then some .convertWebpToPng
  else if t = "webp-to-jpg" then some .convertWebpToJpg
  else if t = "image-to-webp" then some .convertImageToWebp
  else if t = "pdf-to-jpg" then some .convertPdfToJpg
  else if t = "docx-to-pdf" then some .convertDocxToPdf
  else none

/-- The error message built by the `default` case of `convertFile`. -/
def unsupportedMessage (t : String) : String :=
  "Unsupported conversion type: " ++ t ++
    ". Supported types: mp4-to-mp3, png-to-jpg, jpg-to-png, png-to-webp, jpg-to-webp, webp-to-png, webp-to-jpg, pdf-to-jpg, docx-to-pdf"

/-- `convertFile` of `fileConverter.ts`, with the external strategy
bodies abstracted as an oracle `run`; also reports which strategy, if
any, was invoked. The `default` case returns the unsupported-type
failure without invoking any strategy. -/
def convertFile (run : ConversionStrategy → ConversionResult) (t : String) :
    ConversionResult × Option ConversionStrategy :=
  match dispatchStrategy t with
  | some s => (run s, some s)
  | none => ({ success := false, error := some (unsupportedMessage t) }, none)

theorem dispatchStrategy_eq_none_of_invalid (t : String)
    (h : isValidConversionType t = false) : dispatchStrategy t = none := by
  unfold dispatchStrategy
  unfold isValidConversionType validConversionTypes at h
  split_ifs with h1 h2 h3 h4 h5 h6 h7 h8 h9 h10 <;> simp_all

-- ============================================
-- routes/convert.ts
-- ============================================

/-- Job lifecycle states. -/
inductive JobStatus where
  | pending
  | processing
  | completed
  | error
deriving DecidableEq, Repr

/-- The record type stored in the `jobs` map of `routes/convert.ts`. -/
structure ConvertJob where
  status : JobStatus
  progress : Int
  originalFileName : Option String := none
  convertedFileName : Option String := none
  downloadUrl : Option String := none
  error : Option String := none
  inputPath : Option String := none
  outputPath : Option String := none
deriving DecidableEq, Repr

/-- The initial record written by `router.post('/')` at submission. -/
def initConvertJob (originalName inputPath : String) : ConvertJob :=
  { status := .processing
    progress := 50
    originalFileName := some originalName
    inputPath := some inputPath }

/-- The error branch of the convert completion callback:
spread of the previous record with status and error replaced. -/
def convertErrorUpdate (j : ConvertJob) (e : Option String) : ConvertJob :=
  { j with status := .error, error := some (jsStrOr e "Conversion failed") }

/-- The convert completion callback's single registry update: the
success branch requires `result.success && result.outputPath &&
result.outputFileName` (all truthy), otherwise the error branch runs. -/
def settleConvert (j : ConvertJob) (r : ConversionResult) : ConvertJob :=
  match r.success, r.outputPath, r.outputFileName with
  | true, some op, some ofn =>
    if op = "" ∨ ofn = "" then convertErrorUpdate j r.error
    else
      { j with
          status := .completed
          progress := 100
          convertedFileName := some ofn
          downloadUrl := some ("/api/convert/download/" ++ ofn)
          outputPath := some op }
  | _, _, _ => convertErrorUpdate j r.error

/-- In-memory registry: association list mirroring the `Map`. -/
def regSet (reg : List (String × ConvertJob)) (k : String) (v : ConvertJob) :
    List (String × ConvertJob) :=
  (k, v) :: reg.filter (fun p => p.1 != k)

def regGet (reg : List (String × ConvertJob)) (k : String) : Option ConvertJob :=
  (reg.find? (fun p => p.1 == k)).map Prod.snd

def regKeys (reg : List (String × ConvertJob)) : List String :=
  reg.map Prod.fst

/-- A staged multipart upload (`req.file`). -/
structure UploadedFile where
  path : String
  originalname : String
deriving DecidableEq, Repr

/-- The JSON response of the submission handler. -/
structure SubmitResponse where
  statusCode : Nat
  errorTag : Option String := none
  message : Option String := none
  id : Option String := none
  status : Option JobStatus := none
  progress : Option Int := none
  originalFileName : Option String := none
deriving DecidableEq, Repr

/-- Synchronous outcome of `router.post('/')` in `routes/convert.ts`:
the response, the registry after the handler returns, the files it
deleted synchronously, and the record it created (if any). -/
structure SubmitOutcome where
  response : SubmitResponse
  registry : List (String × ConvertJob)
  fsDeleted : List String
  job : Option (String × ConvertJob)
deriving DecidableEq, Repr

/-- The synchronous part of `router.post('/')` of `routes/convert.ts`:
missing file → 400; missing/empty type (falsy) → delete staged file,
400; otherwise create the job record and answer
`{id, status: processing, progress: 50, originalFileName}`. -/
def handleConvertSubmit (reg : List (String × ConvertJob))
    (file : Option UploadedFile) (ctype : String) (jobId : String) :
    SubmitOutcome :=
  match file with
  | none =>
    { response := { statusCode := 400
                    errorTag := some "Bad Request"
                    message := some "No file uploaded" }
      registry := reg
      fsDeleted := []
      job := none }
  | some f =>
    if ctype = "" then
      { response := { statusCode := 400
                      errorTag := some "Bad Request"
                      message := some "Conversion type is required" }
        registry := reg
        fsDeleted := [f.path]
        job := none }
    else
      let j := initConvertJob f.originalname f.path
      { response := { statusCode := 200
                      id := some jobId
                      status := some .processing
                      progress := some 50
                      originalFileName := some f.originalname }
        registry := regSet reg jobId j
        fsDeleted := []
        job := some (jobId, j) }

/-- `deleteFile` of `utils/cleanup.ts` acting on a filesystem modelled
as the list of existing paths: removes the path if present, no-op
otherwise. -/
def deleteFileFS (p : String) (fs : List String) : List String :=
  fs.filter (fun q => q != p)

/-- The asynchronous completion callback of `routes/convert.ts`:
settle the job record with the strategy's result, then
`deleteFile(inputPath)` unconditionally. -/
def convertCompletion (reg : List (String × ConvertJob)) (jobId : String)
    (inputPath : String) (r : ConversionResult) (fs : List String) :
    List (String × ConvertJob) × List String :=
  let reg2 :=
    match regGet reg jobId with
    | some j => regSet reg jobId (settleConvert j r)
    | none => reg
  (reg2, deleteFileFS inputPath fs)

theorem deleteFileFS_not_mem (p : String) (fs : List String) :
    p ∉ deleteFileFS p fs := by
  simp [deleteFileFS, List.mem_filter]

-- ============================================
-- services/youtubeService.ts
-- ============================================

/-- JavaScript `haystack.includes(needle)` on lists of characters:
`listStarts` is prefix matching. -/
def listStarts : List Char → List Char → Bool
  | [], _ => true
  | _ :: _, [] => false
  | a :: as, b :: bs => a == b && listStarts as bs

def listIncl (needle : List Char) : List Char → Bool
  | [] => listStarts needle []
  | b :: bs => listStarts needle (b :: bs) || listIncl needle bs

/-- JavaScript `s.includes(pat)`. -/
def strIncludes (s pat : String) : Bool :=
  listIncl pat.toList s.toList

/-- JavaScript `s.toLowerCase()` (character-wise lowering). -/
def jsToLower (s : String) : String :=
  String.mk (s.toList.map Char.toLower)

/-- JavaScript `s.trim()`: strip leading and trailing whitespace. -/
def jsTrim (s : String) : String :=
  String.mk (((s.toList.dropWhile Char.isWhitespace).reverse.dropWhile
    Char.isWhitespace).reverse)

/-- JavaScript `s.split('\n')`. -/
def splitNlAux : List Char → List Char → List String
  | [], acc => [String.mk acc.reverse]
  | c :: rest, acc =>
    if c = '\n' then String.mk acc.reverse :: splitNlAux rest []
    else splitNlAux rest (c :: acc)

def jsSplitNl (s : String) : List String :=
  splitNlAux s.toList []

/-- `parseYtDlpError` of `youtubeService.ts`: ordered case-insensitive
substring checks over the tool's stderr, then fallback to the first
line whose trimmed length is positive, then a generic message. -/
def parseYtDlpError (stderr : String) : String :=
  let lowerErr := jsToLower stderr
  if strIncludes lowerErr "video unavailable" || strIncludes lowerErr "private video" then
    "Video is unavailable or private"
  else if strIncludes lowerErr "age-restricted" || strIncludes lowerErr "sign in" then
    "Video is age-restricted and requires sign-in"
  else if strIncludes lowerErr "copyright" || strIncludes lowerErr "blocked" then
    "Video is blocked due to copyright"
  else if strIncludes lowerErr "does not exist" || strIncludes lowerErr "removed" then
    "Video does not exist or has been removed"
  else if strIncludes lowerErr "live event" || strIncludes lowerErr "premiere" then
    "Cannot download live events or premieres"
  else if strIncludes lowerErr "yt-dlp" && strIncludes lowerErr "not found" then
    "yt-dlp is not installed. Please install it: https://github.com/yt-dlp/yt-dlp"
  else if strIncludes lowerErr "ffmpeg" && strIncludes lowerErr "not found" then
    "FFmpeg is not installed or not in PATH"
  else if strIncludes lowerErr "unable to extract" || strIncludes lowerErr "extractor error" then
    "YouTube extractor error - yt-dlp may need updating. Run: yt-dlp -U"
  else
    match (jsSplitNl stderr).find? (fun line => decide (0 < (jsTrim line).length)) with
    | some line => line
    | none => "Download failed - unknown error"

/-- The closed set of classified messages of `parseYtDlpError`. -/
def ytDlpFixedMessages : List String :=
  ["Video is unavailable or private",
   "Video is age-restricted and requires sign-in",
   "Video is blocked due to copyright",
   "Video does not exist or has been removed",
   "Cannot download live events or premieres",
   "yt-dlp is not installed. Please install it: https://github.com/yt-dlp/yt-dlp",
   "FFmpeg is not installed or not in PATH",
   "YouTube extractor error - yt-dlp may need updating. Run: yt-dlp -U"]

/-- `YouTubeFormat` of `youtubeService.ts`. -/
inductive YouTubeFormat where
  | audio
  | videoOnly
  | videoAudio
  | separate
deriving DecidableEq, Repr

/-- `YouTubeResult` of `youtubeService.ts`. -/
structure YouTubeResult where
  success : Bool
  outputPath : Option String := none
  outputFileName : Option String := none
  audioPath : Option String := none
  audioFileName : Option String := none
  title : Option String := none
  error : Option String := none
deriving DecidableEq, Repr

/-- Result of one `execYtDlp` invocation. -/
structure ExecResult where
  stdout : String := ""
  stderr : String := ""
  code : Int := 0
deriving DecidableEq, Repr

/-- `path.resolve(config.tempDir)`, modelled as an abstract constant. -/
def tempDirPath : String := "/app/temp"

/-- `path.join(tempDir, f)`. -/
def pathJoin (d f : String) : String := d ++ "/" ++ f

/-- `downloadSeparate` of `youtubeService.ts`, with the two external
yt-dlp invocations abstracted as their observed results `videoRes` and
`audioRes`; `fs` is the set of existing files, and a successful
invocation with `-o path` is modelled as having written `path`.
If the video stage fails, failure is returned with the filesystem
untouched; if the audio stage then fails, the video output is unlinked
(guarded by an existence check) before returning failure. -/
def downloadSeparate (jobId : String) (info : Option String)
    (videoRes audioRes : ExecResult) (fs : List String) :
    YouTubeResult × List String :=
  let videoFileName := jobId ++ "_video.mp4"
  let audioFileName := jobId ++ "_audio.mp3"
  let videoPath := pathJoin tempDirPath videoFileName
  let audioPath := pathJoin tempDirPath audioFileName
  if videoRes.code ≠ 0 then
    ({ success := false
       error := some ("Video download failed: " ++ parseYtDlpError videoRes.stderr) }, fs)
  else
    let fs1 := videoPath :: fs
    if audioRes.code ≠ 0 then
      let fs2 := if videoPath ∈ fs1 then deleteFileFS videoPath fs1 else fs1
      ({ success := false
         error := some ("Audio download failed: " ++ parseYtDlpError audioRes.stderr) }, fs2)
    else
      ({ success := true
         outputPath := some videoPath
         outputFileName := some videoFileName
         audioPath := some audioPath
         audioFileName := some audioFileName
         title := info }, audioPath :: fs1)

-- ============================================
-- routes/youtube.ts
-- ============================================

/-- The record type stored in the `jobs` map of `routes/youtube.ts`. -/
structure YtJob where
  status : JobStatus
  progress : Int
  title : Option String := none
  format : Option YouTubeFormat := none
  downloadUrl : Option String := none
  audioDownloadUrl : Option String := none
  error : Option String := none
  outputPath : Option String := none
  audioPath : Option String := none
deriving DecidableEq, Repr

/-- The initial record written by `router.post('/download')`. -/
def initYtJob (title : Option String) (format : YouTubeFormat) : YtJob :=
  { status := .processing
    progress := 10
    title := title
    format := some format }

/-- The first background update: progress bumped to 30. -/
def ytProgressUpdate (j : YtJob) : YtJob :=
  { j with progress := 30 }

/-- The error branch of the youtube completion callback. -/
def ytErrorUpdate (j : YtJob) (e : Option String) : YtJob :=
  { j with status := .error, error := some (jsStrOr e "Download failed") }

/-- The terminal registry update of the youtube completion callback:
success branch requires `result.success && result.outputPath &&
result.outputFileName` (truthy); for the `separate` format with truthy
audio fields the secondary download URL is added. -/
def settleYt (format : YouTubeFormat) (j : YtJob) (r : YouTubeResult) : YtJob :=
  match r.success, r.outputPath, r.outputFileName with
  | true, some op, some ofn =>
    if op = "" ∨ ofn = "" then ytErrorUpdate j r.error
    else
      let base : YtJob :=
        { j with
            status := .completed
            progress := 100
            title := r.title
            downloadUrl := some ("/api/youtube/file/" ++ ofn)
            outputPath := some op }
      match format, r.audioPath, r.audioFileName with
      | .separate, some ap, some afn =>
        if ap = "" ∨ afn = "" then base
        else
          { base with
              audioDownloadUrl := some ("/api/youtube/file/" ++ afn)
              audioPath := some ap }
      | _, _, _ => base
  | _, _, _ => ytErrorUpdate j r.error

-- ============================================
-- utils/cleanup.ts  (cleanupTempFiles)
-- ============================================

/-- One entry of the managed temp directory, as `cleanupTempFiles`
observes it: its name, last-modified time, whether it is a directory,
and whether the per-entry `statSync` or `unlinkSync` call fails. -/
structure DirEntry where
  name : String
  mtimeMs : Int
  isDir : Bool := false
  statFails : Bool := false
  unlinkFails : Bool := false
deriving DecidableEq, Repr

/-- Observable outcome of one `cleanupTempFiles` run: the entries still
present, the `cleanedCount` the function computed (and logs when
positive), and the function's return value, which is `void`. -/
structure SweepOutcome where
  remaining : List DirEntry
  cleanedCount : Nat
  ret : Unit
deriving Repr

/-- The `for (const file of files)` loop of `cleanupTempFiles`: a
failing `statSync` logs and moves on; directories are skipped; an entry
strictly older than `maxAge` is unlinked unless `unlinkSync` fails, in
which case it is logged and skipped. -/
def sweepLoop (now maxAge : Int) : List DirEntry → List DirEntry × Nat
  | [] => ([], 0)
  | e :: rest =>
    let tail := sweepLoop now maxAge rest
    if e.statFails then (e :: tail.1, tail.2)
    else if e.isDir then (e :: tail.1, tail.2)
    else if now - e.mtimeMs > maxAge then
      if e.unlinkFails then (e :: tail.1, tail.2)
      else (tail.1, tail.2 + 1)
    else (e :: tail.1, tail.2)

/-- `cleanupTempFiles` of `utils/cleanup.ts`: returns immediately when
the directory is missing; otherwise sweeps every entry with
`maxAge = config.cleanupIntervalMinutes * 60 * 1000`. The function's
JavaScript return type is `Promise<void>`: `ret` is the unit value. -/
def cleanupTempFiles (dirExists : Bool) (now maxAge : Int)
    (entries : List DirEntry) : SweepOutcome :=
  if dirExists then
    let r := sweepLoop now maxAge entries
    { remaining := r.1, cleanedCount := r.2, ret := () }
  else
    { remaining := entries, cleanedCount := 0, ret := () }

/-- Which entries one sweep removes: stat succeeded, not a directory,
age strictly above the threshold, unlink succeeded. -/
def sweepDeletes (now maxAge : Int) (e : DirEntry) : Bool :=
  !e.statFails && !e.isDir && decide (now - e.mtimeMs > maxAge) && !e.unlinkFails

-- ============================================
-- middleware/auth.ts  (authMiddleware)
-- ============================================

/-- What the middleware does with a request: pass it to the next
handler, or reject it before any handler with 401 or 403. -/
inductive AuthOutcome where
  | pass
  | unauthorized
  | forbidden
deriving DecidableEq, Repr

/-- `authMiddleware` of `middleware/auth.ts`: with no configured key
the check is skipped; otherwise the supplied key is
`header || query` (JavaScript truthiness), a falsy key is a 401, a
mismatching key is a 403, a matching key passes. -/
def authMiddleware (cfgApiKey : String) (headerKey queryKey : Option String) :
    AuthOutcome :=
  if cfgApiKey = "" then .pass
  else
    match jsOrOpt headerKey queryKey with
    | none => .unauthorized
    | some k =>
      if k = "" then .unauthorized
      else if k ≠ cfgApiKey then .forbidden
      else .pass

-- ============================================
-- services/qrcodeService.ts  (generateQRCode)
-- ============================================

/-- The options object accepted by `generateQRCode`. -/
structure QRCodeOptions where
  size : Option Int := none
  darkColor : Option String := none
  lightColor : Option String := none
deriving DecidableEq, Repr

/-- The options `generateQRCode` passes to `QRCode.toDataURL`. -/
structure QRLibOpts where
  width : Int
  margin : Int
  dark : String
  light : String
deriving DecidableEq, Repr

/-- The `/^#[0-9A-Fa-f]\x7b6\x7d$/` test: a hash sign followed by
exactly six hexadecimal digits. -/
def isHexColor (s : String) : Bool :=
  match s.toList with
  | c :: rest =>
    c == '#' && rest.length == 6 &&
      rest.all (fun d => d.isDigit || ('a' ≤ d && d ≤ 'f') || ('A' ≤ d && d ≤ 'F'))
  | [] => false

/-- The validation block of `generateQRCode`: defaults 512, #000000
and #FFFFFF; `Math.min(Math.max(size, 64), 2048)`; a colour failing the
hex test is silently replaced by its default. -/
def buildQRLibOpts (o : QRCodeOptions) : QRLibOpts :=
  let size := o.size.getD 512
  let darkColor := o.darkColor.getD "#000000"
  let lightColor := o.lightColor.getD "#FFFFFF"
  let validSize := min (max size 64) 2048
  { width := validSize
    margin := 2
    dark := if isHexColor darkColor then darkColor else "#000000"
    light := if isHexColor lightColor then lightColor else "#FFFFFF" }

/-- `QRCodeResult` of `qrcodeService.ts`. -/
structure QRCodeResult where
  success : Bool
  dataUrl : Option String := none
  error : Option String := none
deriving DecidableEq, Repr

/-- `generateQRCode` of `qrcodeService.ts`, with `QRCode.toDataURL`
abstracted as an oracle `toDataURL`; the catch branch maps a thrown
error's message to a failure result. -/
def generateQRCode (toDataURL : String → QRLibOpts → Except String String)
    (content : String) (o : QRCodeOptions) : QRCodeResult :=
  match toDataURL content (buildQRLibOpts o) with
  | .ok url => { success := true, dataUrl := some url }
  | .error e => { success := false, error := some e }

/-- Whether the abstracted library call succeeded. -/
def libOk (r : Except String String) : Bool :=
  match r with
  | .ok _ => true
  | .error _ => false

-- ============================================
-- Invariants and reachability
-- ============================================

/-- Registry invariant for convert-route records: a completed record
has a non-empty download URL, an error record has a non-empty message,
and no completed record carries an error message. -/
def convertJobInv (j : ConvertJob) : Prop :=
  (j.status = .completed → ∃ u, j.downloadUrl = some u ∧ u ≠ "") ∧
  (j.status = .error → ∃ m, j.error = some m ∧ m ≠ "") ∧
  ¬(j.status = .completed ∧ j.error ≠ none)

/-- The same invariant for youtube-route records. -/
def ytJobInv (j : YtJob) : Prop :=
  (j.status = .completed → ∃ u, j.downloadUrl = some u ∧ u ≠ "") ∧
  (j.status = .error → ∃ m, j.error = some m ∧ m ≠ "") ∧
  ¬(j.status = .completed ∧ j.error ≠ none)

/-- The registry states a convert job passes through, following the
code path of `routes/convert.ts`: the initial write at submission, then
the single terminal update of the completion callback. -/
inductive ConvertReachable : ConvertJob → Prop where
  | init (name ipath : String) : ConvertReachable (initConvertJob name ipath)
  | settled (name ipath : String) (r : ConversionResult) :
      ConvertReachable (settleConvert (initConvertJob name ipath) r)

/-- The registry states a youtube job passes through, following the
code path of `routes/youtube.ts`: the initial write, the progress bump
to 30, then the single terminal update. -/
inductive YtReachable : YtJob → Prop where
  | init (title : Option String) (fmt : YouTubeFormat) :
      YtReachable (initYtJob title fmt)
  | progressed (title : Option String) (fmt : YouTubeFormat) :
      YtReachable (ytProgressUpdate (initYtJob title fmt))
  | settled (title : Option String) (fmt : YouTubeFormat) (r : YouTubeResult) :
      YtReachable (settleYt fmt (ytProgressUpdate (initYtJob title fmt)) r)

theorem convertJobInv_errorUpdate (j : ConvertJob) (e : Option String) :
    convertJobInv (convertErrorUpdate j e) := by
  unfold convertJobInv convertErrorUpdate
  refine ⟨?_, ?_, ?_⟩
  · intro h; simp at h
  · intro _
    exact ⟨_, rfl, jsStrOr_ne_empty e "Conversion failed" (by decide)⟩
  · rintro ⟨h, _⟩; simp at h

theorem ytJobInv_errorUpdate (j : YtJob) (e : Option String) :
    ytJobInv (ytErrorUpdate j e) := by
  unfold ytJobInv ytErrorUpdate
  refine ⟨?_, ?_, ?_⟩
  · intro h; simp at h
  · intro _
    exact ⟨_, rfl, jsStrOr_ne_empty e "Download failed" (by decide)⟩
  · rintro ⟨h, _⟩; simp at h

theorem convertJobInv_settle (name ipath : String) (r : ConversionResult) :
    convertJobInv (settleConvert (initConvertJob name ipath) r) := by
  obtain ⟨succ, op, ofn, err⟩ := r
  cases succ <;> cases op <;> cases ofn <;>
    try exact convertJobInv_errorUpdate _ _
  rename_i op ofn
  show convertJobInv (settleConvert (initConvertJob name ipath)
    ⟨true, some op, some ofn, err⟩)
  unfold settleConvert
  by_cases hb : op = "" ∨ ofn = ""
  · simp only [hb, if_true]
    exact convertJobInv_errorUpdate _ _
  · simp only [hb, if_false]
    unfold convertJobInv initConvertJob
    refine ⟨?_, ?_, ?_⟩
    · intro _
      exact ⟨_, rfl, str_append_left_ne_empty _ _ (by decide)⟩
    · intro h; simp at h
    · rintro ⟨_, h⟩; simp at h

theorem ytJobInv_settle (title : Option String) (fmt : YouTubeFormat)
    (r : YouTubeResult) :
    ytJobInv (settleYt fmt (ytProgressUpdate (initYtJob title fmt)) r) := by
  obtain ⟨succ, op, ofn, ap, afn, ttl, err⟩ := r
  cases succ <;> cases op <;> cases ofn <;>
    try exact ytJobInv_errorUpdate _ _
  rename_i op ofn
  show ytJobInv (settleYt fmt (ytProgressUpdate (initYtJob title fmt))
    ⟨true, some op, some ofn, ap, afn, ttl, err⟩)
  unfold settleYt
  by_cases hb : op = "" ∨ ofn = ""
  · simp only [hb, if_true]
    exact ytJobInv_errorUpdate _ _
  · simp only [hb, if_false]
    have hinv : ytJobInv
        { (ytProgressUpdate (initYtJob title fmt)) with
            status := .completed
            progress := 100
            title := ttl
            downloadUrl := some ("/api/youtube/file/" ++ ofn)
            outputPath := some op } := by
      unfold ytJobInv ytProgressUpdate initYtJob
      refine ⟨?_, ?_, ?_⟩
      · intro _
        exact ⟨_, rfl, str_append_left_ne_empty _ _ (by decide)⟩
      · intro h; simp at h
      · rintro ⟨_, h⟩; simp at h
    cases fmt <;> cases ap <;> cases afn <;> try exact hinv
    rename_i ap afn
    by_cases hab : ap = "" ∨ afn = ""
    · simp only [hab, if_true]
      exact hinv
    · simp only [hab, if_false]
      unfold ytJobInv ytProgressUpdate initYtJob
      refine ⟨?_, ?_, ?_⟩
      · intro _
        exact ⟨_, rfl, str_append_left_ne_empty _ _ (by decide)⟩
      · intro h; simp at h
      · rintro ⟨_, h⟩; simp at h

theorem settleConvert_falsy (j : ConvertJob) (r : ConversionResult)
    (h : r.success = false ∨ r.outputPath = none ∨ r.outputFileName = none ∨
      r.outputPath = some "" ∨ r.outputFileName = some "") :
    settleConvert j r = convertErrorUpdate j r.error := by
  obtain ⟨succ, op, ofn, err⟩ := r
  cases succ <;> cases op <;> cases ofn <;> try rfl
  rename_i op ofn
  show settleConvert j ⟨true, some op, some ofn, err⟩ = _
  unfold settleConvert
  simp only at h
  have hb : op = "" ∨ ofn = "" := by
    rcases h with h | h | h | h | h <;> simp_all
  simp only [hb, if_true]

theorem settleYt_falsy (fmt : YouTubeFormat) (j : YtJob) (r : YouTubeResult)
    (h : r.success = false ∨ r.outputPath = none ∨ r.outputFileName = none ∨
      r.outputPath = some "" ∨ r.outputFileName = some "") :
    settleYt fmt j r = ytErrorUpdate j r.error := by
  obtain ⟨succ, op, ofn, ap, afn, ttl, err⟩ := r
  cases succ <;> cases op <;> cases ofn <;> try rfl
  rename_i op ofn
  show settleYt fmt j ⟨true, some op, some ofn, ap, afn, ttl, err⟩ = _
  unfold settleYt
  simp only at h
  have hb : op = "" ∨ ofn = "" := by
    rcases h with h | h | h | h | h <;> simp_all
  simp only [hb, if_true]

theorem settleConvert_terminal (j : ConvertJob) (r : ConversionResult) :
    (settleConvert j r).status = .completed ∨ (settleConvert j r).status = .error := by
  obtain ⟨succ, op, ofn, err⟩ := r
  cases succ <;> cases op <;> cases ofn <;>
    try exact Or.inr rfl
  rename_i op ofn
  show (settleConvert j ⟨true, some op, some ofn, err⟩).status = .completed ∨
    (settleConvert j ⟨true, some op, some ofn, err⟩).status = .error
  unfold settleConvert
  by_cases hb : op = "" ∨ ofn = ""
  · simp only [hb, if_true]
    exact Or.inr rfl
  · simp [hb]

-- ============================================
-- Claims
-- ============================================

/-- C1, as stated, is false of the code: `routes/convert.ts` only
checks that the `type` field is truthy and never consults
`isValidConversionType`, so a submission with the unsupported kind
`gif-to-bmp` is answered 200 (not a validation error) and a job record
is created (the registry's key set grows from `[]` to `["job-1"]`),
even though `gif-to-bmp` is not a supported conversion kind. -/
theorem convert_submit_unsupported_kind_creates_job :
    (handleConvertSubmit [] (some ⟨"/app/temp/in.gif", "in.gif"⟩)
      "gif-to-bmp" "job-1").response.statusCode = 200 ∧
    regKeys (handleConvertSubmit [] (some ⟨"/app/temp/in.gif", "in.gif"⟩)
      "gif-to-bmp" "job-1").registry = ["job-1"] ∧
    isValidConversionType "gif-to-bmp" = false := by
  exact ⟨rfl, rfl, by decide⟩

/-- C1 (amended): a submission with a missing or empty conversion kind
is rejected with a 400 validation error and creates no job record; a
submission with a non-empty unsupported kind is accepted (200), creates
a job record, and the dispatcher's `default` case settles that job as
`error` carrying the unsupported-type message without invoking any
conversion strategy. -/
theorem convert_submit_unsupported_kind_amended
    (reg : List (String × ConvertJob)) (f : UploadedFile)
    (ctype jobId : String) (run : ConversionStrategy → ConversionResult)
    (hne : ctype ≠ "") (hinv : isValidConversionType ctype = false) :
    (handleConvertSubmit reg (some f) "" jobId).response.statusCode = 400 ∧
    (handleConvertSubmit reg (some f) "" jobId).registry = reg ∧
    (handleConvertSubmit reg none ctype jobId).response.statusCode = 400 ∧
    (handleConvertSubmit reg none ctype jobId).registry = reg ∧
    (handleConvertSubmit reg (some f) ctype jobId).response.statusCode = 200 ∧
    (handleConvertSubmit reg (some f) ctype jobId).job =
      some (jobId, initConvertJob f.originalname f.path) ∧
    (convertFile run ctype).2 = none ∧
    (convertFile run ctype).1 =
      { success := false, error := some (unsupportedMessage ctype) } ∧
    (settleConvert (initConvertJob f.originalname f.path)
      (convertFile run ctype).1).status = .error ∧
    (settleConvert (initConvertJob f.originalname f.path)
      (convertFile run ctype).1).error = some (unsupportedMessage ctype) := by
  have hd : dispatchStrategy ctype = none :=
    dispatchStrategy_eq_none_of_invalid ctype hinv
  have hm : unsupportedMessage ctype ≠ "" :=
    str_append_left_ne_empty _ _ (str_append_left_ne_empty _ _ (by decide))
  have hcf : convertFile run ctype =
      ({ success := false, error := some (unsupportedMessage ctype) }, none) := by
    unfold convertFile
    rw [hd]
  refine ⟨rfl, rfl, rfl, rfl, ?_, ?_, ?_, ?_, ?_, ?_⟩
  · unfold handleConvertSubmit
    simp [hne]
  · unfold handleConvertSubmit
    simp [hne]
  · rw [hcf]
  · rw [hcf]
  · rw [hcf]
    rw [settleConvert_falsy _ _ (Or.inl rfl)]
    rfl
  · rw [hcf]
    rw [settleConvert_falsy _ _ (Or.inl rfl)]
    show some (jsStrOr (some (unsupportedMessage ctype)) "Conversion failed") = _
    unfold jsStrOr
    simp [hm]

/-- C1 amended, applied at a concrete unsupported kind. -/
theorem convert_submit_unsupported_kind_amended_witness :
    (handleConvertSubmit [] (some ⟨"/app/temp/in.gif", "in.gif"⟩) "" "job-1").response.statusCode = 400 ∧
    (handleConvertSubmit [] (some ⟨"/app/temp/in.gif", "in.gif"⟩) "" "job-1").registry = [] ∧
    (handleConvertSubmit [] none "gif-to-bmp" "job-1").response.statusCode = 400 ∧
    (handleConvertSubmit [] none "gif-to-bmp" "job-1").registry = [] ∧
    (handleConvertSubmit [] (some ⟨"/app/temp/in.gif", "in.gif"⟩) "gif-to-bmp" "job-1").response.statusCode = 200 ∧
    (handleConvertSubmit [] (some ⟨"/app/temp/in.gif", "in.gif"⟩) "gif-to-bmp" "job-1").job =
      some ("job-1", initConvertJob "in.gif" "/app/temp/in.gif") ∧
    (convertFile (fun _ => { success := true }) "gif-to-bmp").2 = none ∧
    (convertFile (fun _ => { success := true }) "gif-to-bmp").1 =
      { success := false, error := some (unsupportedMessage "gif-to-bmp") } ∧
    (settleConvert (initConvertJob "in.gif" "/app/temp/in.gif")
      (convertFile (fun _ => { success := true }) "gif-to-bmp").1).status = .error ∧
    (settleConvert (initConvertJob "in.gif" "/app/temp/in.gif")
      (convertFile (fun _ => { success := true }) "gif-to-bmp").1).error =
      some (unsupportedMessage "gif-to-bmp") :=
  convert_submit_unsupported_kind_amended [] ⟨"/app/temp/in.gif", "in.gif"⟩
    "gif-to-bmp" "job-1" (fun _ => { success := true })
    (by decide) (by decide)

/-- C2: after every registry update of `routes/convert.ts` and
`routes/youtube.ts`, every reachable job record satisfies: completed
implies a non-empty downloadUrl, error implies a non-empty message, and
no record is simultaneously completed and carrying an error message. -/
theorem registry_update_invariant :
    (∀ j, ConvertReachable j → convertJobInv j) ∧
    (∀ j, YtReachable j → ytJobInv j) := by
  constructor
  · intro j h
    cases h with
    | init name ipath =>
      unfold convertJobInv initConvertJob
      refine ⟨?_, ?_, ?_⟩
      · intro hc; simp at hc
      · intro hc; simp at hc
      · rintro ⟨hc, _⟩; simp at hc
    | settled name ipath r =>
      exact convertJobInv_settle name ipath r
  · intro j h
    cases h with
    | init title fmt =>
      unfold ytJobInv initYtJob
      refine ⟨?_, ?_, ?_⟩
      · intro hc; simp at hc
      · intro hc; simp at hc
      · rintro ⟨hc, _⟩; simp at hc
    | progressed title fmt =>
      unfold ytJobInv ytProgressUpdate initYtJob
      refine ⟨?_, ?_, ?_⟩
      · intro hc; simp at hc
      · intro hc; simp at hc
      · rintro ⟨hc, _⟩; simp at hc
    | settled title fmt r =>
      exact ytJobInv_settle title fmt r

/-- C2 applied to concrete reachable records of both registries. -/
theorem registry_update_invariant_witness :
    convertJobInv (initConvertJob "in.png" "/app/temp/in.png") ∧
    ytJobInv (initYtJob (some "Title") .audio) :=
  ⟨registry_update_invariant.1 _ (ConvertReachable.init "in.png" "/app/temp/in.png"),
   registry_update_invariant.2 _ (YtReachable.init (some "Title") .audio)⟩

/-- C3: in `downloadSeparate`, when the video stage succeeds and the
audio stage fails, the video output is removed from the filesystem
before the strategy returns, the result is a failure with a non-empty
message, and settling the job with that result leaves it in state
error with neither download URL set. -/
theorem separate_audio_failure_cleanup (jobId : String)
    (info title : Option String) (videoRes audioRes : ExecResult)
    (fs : List String) (hv : videoRes.code = 0) (ha : audioRes.code ≠ 0) :
    (downloadSeparate jobId info videoRes audioRes fs).1.success = false ∧
    (∃ e, (downloadSeparate jobId info videoRes audioRes fs).1.error = some e ∧
      e ≠ "") ∧
    pathJoin tempDirPath (jobId ++ "_video.mp4") ∉
      (downloadSeparate jobId info videoRes audioRes fs).2 ∧
    (settleYt .separate (ytProgressUpdate (initYtJob title .separate))
      (downloadSeparate jobId info videoRes audioRes fs).1).status = .error ∧
    (settleYt .separate (ytProgressUpdate (initYtJob title .separate))
      (downloadSeparate jobId info videoRes audioRes fs).1).downloadUrl = none ∧
    (settleYt .separate (ytProgressUpdate (initYtJob title .separate))
      (downloadSeparate jobId info videoRes audioRes fs).1).audioDownloadUrl = none := by
  have hds : downloadSeparate jobId info videoRes audioRes fs =
      ({ success := false
         error := some ("Audio download failed: " ++ parseYtDlpError audioRes.stderr) },
       deleteFileFS (pathJoin tempDirPath (jobId ++ "_video.mp4"))
         (pathJoin tempDirPath (jobId ++ "_video.mp4") :: fs)) := by
    unfold downloadSeparate
    simp [hv, ha]
  rw [hds]
  have hset : settleYt .separate (ytProgressUpdate (initYtJob title .separate))
      { success := false
        error := some ("Audio download failed: " ++ parseYtDlpError audioRes.stderr) } =
      ytErrorUpdate (ytProgressUpdate (initYtJob title .separate))
        (some ("Audio download failed: " ++ parseYtDlpError audioRes.stderr)) :=
    settleYt_falsy _ _ _ (Or.inl rfl)
  rw [hset]
  refine ⟨rfl, ⟨_, rfl, str_append_left_ne_empty _ _ (by decide)⟩, ?_, rfl, rfl, rfl⟩
  exact deleteFileFS_not_mem _ _

/-- C3 applied to a concrete failing audio stage. -/
theorem separate_audio_failure_cleanup_witness :
    (downloadSeparate "j1" none ⟨"", "", 0⟩ ⟨"", "boom", 1⟩ ["/app/temp/other.mp4"]).1.success = false ∧
    (∃ e, (downloadSeparate "j1" none ⟨"", "", 0⟩ ⟨"", "boom", 1⟩ ["/app/temp/other.mp4"]).1.error = some e ∧
      e ≠ "") ∧
    pathJoin tempDirPath ("j1" ++ "_video.mp4") ∉
      (downloadSeparate "j1" none ⟨"", "", 0⟩ ⟨"", "boom", 1⟩ ["/app/temp/other.mp4"]).2 ∧
    (settleYt .separate (ytProgressUpdate (initYtJob (some "T") .separate))
      (downloadSeparate "j1" none ⟨"", "", 0⟩ ⟨"", "boom", 1⟩ ["/app/temp/other.mp4"]).1).status = .error ∧
    (settleYt .separate (ytProgressUpdate (initYtJob (some "T") .separate))
      (downloadSeparate "j1" none ⟨"", "", 0⟩ ⟨"", "boom", 1⟩ ["/app/temp/other.mp4"]).1).downloadUrl = none ∧
    (settleYt .separate (ytProgressUpdate (initYtJob (some "T") .separate))
      (downloadSeparate "j1" none ⟨"", "", 0⟩ ⟨"", "boom", 1⟩ ["/app/temp/other.mp4"]).1).audioDownloadUrl = none :=
  separate_audio_failure_cleanup "j1" none (some "T") ⟨"", "", 0⟩ ⟨"", "boom", 1⟩
    ["/app/temp/other.mp4"] rfl (by decide)

theorem sweepLoop_spec (now maxAge : Int) (entries : List DirEntry) :
    sweepLoop now maxAge entries =
      (entries.filter (fun e => !sweepDeletes now maxAge e),
       (entries.filter (fun e => sweepDeletes now maxAge e)).length) := by
  induction entries with
  | nil => rfl
  | cons e rest ih =>
    unfold sweepLoop
    rw [ih]
    by_cases hs : e.statFails
    · simp [List.filter, sweepDeletes, hs]
    · by_cases hd : e.isDir
      · simp [List.filter, sweepDeletes, hs, hd]
      · by_cases hage : now - e.mtimeMs > maxAge
        · by_cases hu : e.unlinkFails
          · simp [List.filter, sweepDeletes, hs, hd, hage, hu]
          · simp [List.filter, sweepDeletes, hs, hd, hage, hu]
        · simp [List.filter, sweepDeletes, hs, hd, hage]

/-- C4, as stated, is false of the code on the return value:
`cleanupTempFiles` computes and logs `cleanedCount`, but its JavaScript
return type is `Promise<void>`, so the count is not returned: two runs
removing different numbers of entries have identical return values. -/
theorem sweep_does_not_return_count :
    (cleanupTempFiles true 1000 10 [⟨"old.mp3", 0, false, false, false⟩]).cleanedCount ≠
      (cleanupTempFiles true 1000 10 []).cleanedCount ∧
    (cleanupTempFiles true 1000 10 [⟨"old.mp3", 0, false, false, false⟩]).ret =
      (cleanupTempFiles true 1000 10 []).ret :=
  ⟨by decide, rfl⟩

/-- C4 (amended): the sweep scans the managed directory non-recursively
and removes exactly the non-directory entries whose age is strictly
greater than the threshold and whose stat and unlink calls succeed;
per-entry failures are isolated (every other deletable entry is still
removed, and failing entries are merely kept); the removed count is
computed and logged but the function returns void, not the count. -/
theorem sweep_amended (now maxAge : Int) (entries : List DirEntry) :
    (cleanupTempFiles true now maxAge entries).remaining =
      entries.filter (fun e => !sweepDeletes now maxAge e) ∧
    (cleanupTempFiles true now maxAge entries).cleanedCount =
      (entries.filter (fun e => sweepDeletes now maxAge e)).length ∧
    (cleanupTempFiles true now maxAge entries).ret = () ∧
    (cleanupTempFiles false now maxAge entries).remaining = entries ∧
    (cleanupTempFiles false now maxAge entries).cleanedCount = 0 := by
  unfold cleanupTempFiles
  rw [sweepLoop_spec]
  exact ⟨rfl, rfl, rfl, rfl, rfl⟩

/-- C5: whenever a strategy settles with a falsy result (failure), the
completion callback's registry update sets status to error and the
message to the classified cause, and leaves progress and every other
previously set field unchanged — in both the convert and the youtube
route. -/
theorem error_transition_frame :
    (∀ (j : ConvertJob) (r : ConversionResult),
      (r.success = false ∨ r.outputPath = none ∨ r.outputFileName = none ∨
        r.outputPath = some "" ∨ r.outputFileName = some "") →
      (settleConvert j r).status = .error ∧
      (settleConvert j r).error = some (jsStrOr r.error "Conversion failed") ∧
      (settleConvert j r).progress = j.progress ∧
      (settleConvert j r).originalFileName = j.originalFileName ∧
      (settleConvert j r).convertedFileName = j.convertedFileName ∧
      (settleConvert j r).downloadUrl = j.downloadUrl ∧
      (settleConvert j r).inputPath = j.inputPath ∧
      (settleConvert j r).outputPath = j.outputPath) ∧
    (∀ (fmt : YouTubeFormat) (j : YtJob) (r : YouTubeResult),
      (r.success = false ∨ r.outputPath = none ∨ r.outputFileName = none ∨
        r.outputPath = some "" ∨ r.outputFileName = some "") →
      (settleYt fmt j r).status = .error ∧
      (settleYt fmt j r).error = some (jsStrOr r.error "Download failed") ∧
      (settleYt fmt j r).progress = j.progress ∧
      (settleYt fmt j r).title = j.title ∧
      (settleYt fmt j r).format = j.format ∧
      (settleYt fmt j r).downloadUrl = j.downloadUrl ∧
      (settleYt fmt j r).audioDownloadUrl = j.audioDownloadUrl ∧
      (settleYt fmt j r).outputPath = j.outputPath ∧
      (settleYt fmt j r).audioPath = j.audioPath) := by
  constructor
  · intro j r h
    rw [settleConvert_falsy j r h]
    unfold convertErrorUpdate
    exact ⟨rfl, rfl, rfl, rfl, rfl, rfl, rfl, rfl⟩
  · intro fmt j r h
    rw [settleYt_falsy fmt j r h]
    unfold ytErrorUpdate
    exact ⟨rfl, rfl, rfl, rfl, rfl, rfl, rfl, rfl, rfl⟩

/-- C5 applied to a concrete failure result in both routes. -/
theorem error_transition_frame_witness :
    ((settleConvert (initConvertJob "in.png" "/app/temp/in.png")
        { success := false, error := some "PNG to JPG failed: boom" }).status = .error ∧
      (settleConvert (initConvertJob "in.png" "/app/temp/in.png")
        { success := false, error := some "PNG to JPG failed: boom" }).error =
        some (jsStrOr (some "PNG to JPG failed: boom") "Conversion failed") ∧
      (settleConvert (initConvertJob "in.png" "/app/temp/in.png")
        { success := false, error := some "PNG to JPG failed: boom" }).progress =
        (initConvertJob "in.png" "/app/temp/in.png").progress ∧
      (settleConvert (initConvertJob "in.png" "/app/temp/in.png")
        { success := false, error := some "PNG to JPG failed: boom" }).originalFileName =
        (initConvertJob "in.png" "/app/temp/in.png").originalFileName ∧
      (settleConvert (initConvertJob "in.png" "/app/temp/in.png")
        { success := false, error := some "PNG to JPG failed: boom" }).convertedFileName =
        (initConvertJob "in.png" "/app/temp/in.png").convertedFileName ∧
      (settleConvert (initConvertJob "in.png" "/app/temp/in.png")
        { success := false, error := some "PNG to JPG failed: boom" }).downloadUrl =
        (initConvertJob "in.png" "/app/temp/in.png").downloadUrl ∧
      (settleConvert (initConvertJob "in.png" "/app/temp/in.png")
        { success := false, error := some "PNG to JPG failed: boom" }).inputPath =
        (initConvertJob "in.png" "/app/temp/in.png").inputPath ∧
      (settleConvert (initConvertJob "in.png" "/app/temp/in.png")
        { success := false, error := some "PNG to JPG failed: boom" }).outputPath =
        (initConvertJob "in.png" "/app/temp/in.png").outputPath) :=
  error_transition_frame.1 (initConvertJob "in.png" "/app/temp/in.png")
    { success := false, error := some "PNG to JPG failed: boom" } (Or.inl rfl)

/-- C6: `parseYtDlpError` always yields a non-empty string, which is
either one of the eight fixed classified causes, or the first line of
the diagnostic text with non-empty trim, or the fixed generic message
when no such line exists; and the first listed substring check
("video unavailable", checked case-insensitively) takes priority. -/
theorem yt_dlp_error_classification (s : String) :
    parseYtDlpError s ≠ "" ∧
    (parseYtDlpError s ∈ ytDlpFixedMessages ∨
      (jsSplitNl s).find? (fun line => decide (0 < (jsTrim line).length)) =
        some (parseYtDlpError s) ∨
      ((jsSplitNl s).find? (fun line => decide (0 < (jsTrim line).length)) = none ∧
        parseYtDlpError s = "Download failed - unknown error")) ∧
    (strIncludes (jsToLower s) "video unavailable" = true →
      parseYtDlpError s = "Video is unavailable or private") := by
  unfold parseYtDlpError
  simp only []
  split_ifs with h1 h2 h3 h4 h5 h6 h7 h8
  · exact ⟨by decide, Or.inl (by decide), fun _ => rfl⟩
  · refine ⟨by decide, Or.inl (by decide), fun hv => absurd ?_ h1⟩
    simp [hv]
  · refine ⟨by decide, Or.inl (by decide), fun hv => absurd ?_ h1⟩
    simp [hv]
  · refine ⟨by decide, Or.inl (by decide), fun hv => absurd ?_ h1⟩
    simp [hv]
  · refine ⟨by decide, Or.inl (by decide), fun hv => absurd ?_ h1⟩
    simp [hv]
  · refine ⟨by decide, Or.inl (by decide), fun hv => absurd ?_ h1⟩
    simp [hv]
  · refine ⟨by decide, Or.inl (by decide), fun hv => absurd ?_ h1⟩
    simp [hv]
  · refine ⟨by decide, Or.inl (by decide), fun hv => absurd ?_ h1⟩
    simp [hv]
  · cases hf : (jsSplitNl s).find? (fun line => decide (0 < (jsTrim line).length)) with
    | some line =>
      have hlen : 0 < (jsTrim line).length := by
        simpa using List.find?_some hf
      have hne : line ≠ "" := by
        intro he
        rw [he] at hlen
        exact absurd hlen (by decide)
      refine ⟨hne, Or.inr (Or.inl rfl), fun hv => absurd ?_ h1⟩
      simp [hv]
    | none =>
      refine ⟨by decide, Or.inr (Or.inr ⟨rfl, rfl⟩), fun hv => absurd ?_ h1⟩
      simp [hv]

/-- C6 applied to a concrete diagnostic text. -/
theorem yt_dlp_error_classification_witness :
    parseYtDlpError "ERROR: Video unavailable" ≠ "" ∧
    (parseYtDlpError "ERROR: Video unavailable" ∈ ytDlpFixedMessages ∨
      (jsSplitNl "ERROR: Video unavailable").find?
        (fun line => decide (0 < (jsTrim line).length)) =
        some (parseYtDlpError "ERROR: Video unavailable") ∨
      ((jsSplitNl "ERROR: Video unavailable").find?
        (fun line => decide (0 < (jsTrim line).length)) = none ∧
        parseYtDlpError "ERROR: Video unavailable" = "Download failed - unknown error")) ∧
    (strIncludes (jsToLower "ERROR: Video unavailable") "video unavailable" = true →
      parseYtDlpError "ERROR: Video unavailable" = "Video is unavailable or private") :=
  yt_dlp_error_classification "ERROR: Video unavailable"

/-- C7: a submission with a staged file and a non-empty conversion kind
is answered with exactly the fresh job id, status processing, progress
50 and the original file name, and the record created in the registry
has status processing and progress 50. -/
theorem valid_submission_response (reg : List (String × ConvertJob))
    (f : UploadedFile) (ctype jobId : String) (h : ctype ≠ "") :
    (handleConvertSubmit reg (some f) ctype jobId).response =
      { statusCode := 200
        id := some jobId
        status := some .processing
        progress := some 50
        originalFileName := some f.originalname } ∧
    regGet (handleConvertSubmit reg (some f) ctype jobId).registry jobId =
      some (initConvertJob f.originalname f.path) ∧
    (initConvertJob f.originalname f.path).status = .processing ∧
    (initConvertJob f.originalname f.path).progress = 50 := by
  unfold handleConvertSubmit
  simp [h, regGet, regSet, List.find?]
  exact ⟨rfl, rfl⟩

/-- C7 applied to a concrete valid submission. -/
theorem valid_submission_response_witness :
    (handleConvertSubmit [] (some ⟨"/app/temp/a.png", "a.png"⟩) "png-to-jpg" "job-2").response =
      { statusCode := 200
        id := some "job-2"
        status := some .processing
        progress := some 50
        originalFileName := some "a.png" } ∧
    regGet (handleConvertSubmit [] (some ⟨"/app/temp/a.png", "a.png"⟩) "png-to-jpg" "job-2").registry "job-2" =
      some (initConvertJob "a.png" "/app/temp/a.png") ∧
    (initConvertJob "a.png" "/app/temp/a.png").status = .processing ∧
    (initConvertJob "a.png" "/app/temp/a.png").progress = 50 :=
  valid_submission_response [] ⟨"/app/temp/a.png", "a.png"⟩ "png-to-jpg" "job-2"
    (by decide)

/-- C8: the convert completion callback deletes the staged input
unconditionally, in both terminal outcomes: after the callback the
input path is no longer in the filesystem, regardless of any age or
retention threshold, and the settled record is completed or error. -/
theorem input_deleted_after_settlement (reg : List (String × ConvertJob))
    (jobId inputPath : String) (r : ConversionResult) (fs : List String) :
    inputPath ∉ (convertCompletion reg jobId inputPath r fs).2 ∧
    (∀ j, regGet reg jobId = some j →
      regGet (convertCompletion reg jobId inputPath r fs).1 jobId =
        some (settleConvert j r)) ∧
    (∀ j : ConvertJob, (settleConvert j r).status = .completed ∨
      (settleConvert j r).status = .error) := by
  refine ⟨deleteFileFS_not_mem _ _, ?_, fun j => settleConvert_terminal j r⟩
  intro j hj
  unfold convertCompletion
  rw [hj]
  unfold regGet regSet
  simp [List.find?]

/-- C8 applied to a concrete settled job. -/
theorem input_deleted_after_settlement_witness :
    "/app/temp/in.png" ∉
      (convertCompletion [("job-3", initConvertJob "in.png" "/app/temp/in.png")]
        "job-3" "/app/temp/in.png" { success := false }
        ["/app/temp/in.png", "/app/temp/other.bin"]).2 ∧
    (∀ j, regGet [("job-3", initConvertJob "in.png" "/app/temp/in.png")] "job-3" = some j →
      regGet (convertCompletion [("job-3", initConvertJob "in.png" "/app/temp/in.png")]
        "job-3" "/app/temp/in.png" { success := false }
        ["/app/temp/in.png", "/app/temp/other.bin"]).1 "job-3" =
        some (settleConvert j { success := false })) ∧
    (∀ j : ConvertJob, (settleConvert j { success := false }).status = .completed ∨
      (settleConvert j { success := false }).status = .error) :=
  input_deleted_after_settlement [("job-3", initConvertJob "in.png" "/app/temp/in.png")]
    "job-3" "/app/temp/in.png" { success := false }
    ["/app/temp/in.png", "/app/temp/other.bin"]

/-- C9: with a configured key, a request supplying no truthy key is
rejected 401 and a request supplying a wrong key is rejected 403,
both before any handler; a request supplying the configured key passes;
with no configured key every request passes unexamined. -/
theorem auth_middleware_policy (cfgKey : String) (header query : Option String) :
    (cfgKey = "" → authMiddleware cfgKey header query = .pass) ∧
    (cfgKey ≠ "" → jsOrOpt header query = none →
      authMiddleware cfgKey header query = .unauthorized) ∧
    (cfgKey ≠ "" → jsOrOpt header query = some "" →
      authMiddleware cfgKey header query = .unauthorized) ∧
    (∀ k, cfgKey ≠ "" → jsOrOpt header query = some k → k ≠ "" → k ≠ cfgKey →
      authMiddleware cfgKey header query = .forbidden) ∧
    (cfgKey ≠ "" → jsOrOpt header query = some cfgKey →
      authMiddleware cfgKey header query = .pass) := by
  refine ⟨?_, ?_, ?_, ?_, ?_⟩
  · intro hc
    unfold authMiddleware
    simp [hc]
  · intro hc hk
    unfold authMiddleware
    simp [hc, hk]
  · intro hc hk
    unfold authMiddleware
    simp [hc, hk]
  · intro k hc hk hke hkc
    unfold authMiddleware
    simp [hc, hk, hke, hkc]
  · intro hc hk
    unfold authMiddleware
    simp [hc, hk]

/-- C9 applied to concrete requests in all four situations. -/
theorem auth_middleware_policy_witness :
    (authMiddleware "" none none = .pass) ∧
    (authMiddleware "secret" none none = .unauthorized) ∧
    (authMiddleware "secret" (some "wrong") none = .forbidden) ∧
    (authMiddleware "secret" none (some "secret") = .pass) := by
  refine ⟨?_, ?_, ?_, ?_⟩
  · exact (auth_middleware_policy "" none none).1 rfl
  · exact (auth_middleware_policy "secret" none none).2.1 (by decide) rfl
  · exact (auth_middleware_policy "secret" (some "wrong") none).2.2.2.1 "wrong"
      (by decide) rfl (by decide) (by decide)
  · exact (auth_middleware_policy "secret" none (some "secret")).2.2.2.2
      (by decide) rfl

/-- C10: the size passed to the QR library is always within [64, 2048],
is 512 when no size is requested and the clamp of the requested size
otherwise; a colour failing the hex test is silently replaced by its
default while a valid one is kept; and generation succeeds exactly when
the library call succeeds, so invalid options never cause failure. -/
theorem qrcode_option_sanitisation (o : QRCodeOptions)
    (lib : String → QRLibOpts → Except String String) (content : String) :
    (64 ≤ (buildQRLibOpts o).width ∧ (buildQRLibOpts o).width ≤ 2048) ∧
    (o.size = none → (buildQRLibOpts o).width = 512) ∧
    (∀ n, o.size = some n → (buildQRLibOpts o).width = min (max n 64) 2048) ∧
    (∀ c, o.darkColor = some c → isHexColor c = false →
      (buildQRLibOpts o).dark = "#000000") ∧
    (∀ c, o.darkColor = some c → isHexColor c = true →
      (buildQRLibOpts o).dark = c) ∧
    (o.darkColor = none → (buildQRLibOpts o).dark = "#000000") ∧
    (∀ c, o.lightColor = some c → isHexColor c = false →
      (buildQRLibOpts o).light = "#FFFFFF") ∧
    (∀ c, o.lightColor = some c → isHexColor c = true →
      (buildQRLibOpts o).light = c) ∧
    (o.lightColor = none → (buildQRLibOpts o).light = "#FFFFFF") ∧
    (generateQRCode lib content o).success = libOk (lib content (buildQRLibOpts o)) := by
  obtain ⟨sz, dc, lc⟩ := o
  refine ⟨⟨?_, ?_⟩, ?_, ?_, ?_, ?_, ?_, ?_, ?_, ?_, ?_⟩
  · exact le_min (le_max_right _ _) (by norm_num)
  · exact min_le_right _ _
  · intro hs
    have h2 : sz = none := hs
    subst h2
    simp [buildQRLibOpts]
  · intro n hs
    have h2 : sz = some n := hs
    subst h2
    rfl
  · intro c hc hh
    have h2 : dc = some c := hc
    subst h2
    simp [buildQRLibOpts, hh]
  · intro c hc hh
    have h2 : dc = some c := hc
    subst h2
    simp [buildQRLibOpts, hh]
  · intro hc
    have h2 : dc = none := hc
    subst h2
    simp [buildQRLibOpts]
  · intro c hc hh
    have h2 : lc = some c := hc
    subst h2
    simp [buildQRLibOpts, hh]
  · intro c hc hh
    have h2 : lc = some c := hc
    subst h2
    simp [buildQRLibOpts, hh]
  · intro hc
    have h2 : lc = none := hc
    subst h2
    simp [buildQRLibOpts]
  · unfold generateQRCode libOk
    cases lib content (buildQRLibOpts ⟨sz, dc, lc⟩) <;> rfl

/-- C10 applied to concrete out-of-range and malformed options. -/
theorem qrcode_option_sanitisation_witness :
    ((buildQRLibOpts ⟨some 5000, some "red", some "#GGGGGG"⟩).width = 2048 ∧
      (buildQRLibOpts ⟨some 5000, some "red", some "#GGGGGG"⟩).dark = "#000000" ∧
      (buildQRLibOpts ⟨some 5000, some "red", some "#GGGGGG"⟩).light = "#FFFFFF") ∧
    (∀ n, (⟨some 5000, some "red", some "#GGGGGG"⟩ : QRCodeOptions).size = some n →
      (buildQRLibOpts ⟨some 5000, some "red", some "#GGGGGG"⟩).width = min (max n 64) 2048) := by
  have h := qrcode_option_sanitisation ⟨some 5000, some "red", some "#GGGGGG"⟩
    (fun _ _ => Except.ok "data:image/png;base64,AA") "hello"
  refine ⟨⟨?_, ?_, ?_⟩, h.2.2.1⟩
  · rw [h.2.2.1 5000 rfl]
    decide
  · exact h.2.2.2.1 "red" rfl (by decide)
  · exact h.2.2.2.2.2.2.1 "#GGGGGG" rfl (by decide)

end PMC
